import Mathlib

/-!
# Verification of the LongImgToPDF core (src/services/pdfService.ts, src/types.ts)

Shallow embedding of the two core routines:

* `generatePdfPages` — splits a long source image into page-sized segments
  (the Segmenter of the spec);
* `createPdfBlob` — assembles the processed pages into a multi-page PDF
  through jsPDF (the Assembler of the spec).

Modelling conventions:

* JavaScript `number` arithmetic is modelled exactly over `ℚ`; every
  arithmetic expression of the source is translated term by term.
  `Math.ceil` becomes `Int.ceil`.
* The HTML canvas is modelled by a record capturing exactly the drawing
  calls the source makes on it (dimensions, the `fillRect` after setting
  `fillStyle`, and the single `drawImage` with its source and destination
  rectangles).  `canvas.toDataURL` is modelled as an injective packaging of
  the canvas state together with the mime type and quality argument.
* `canvas.getContext('2d')` may return `null` in a browser; the source
  reacts with `continue`.  This environment dependency is modelled by a
  parameter `ctxOk : ℕ → Bool` telling, per page index, whether the
  context is available.
* The source functions contain no `throw` and the promises they return are
  never rejected; the `Except` result type records this: the embedding
  always returns `Except.ok`.  The error inductive types list the errors
  the specification names, so that statements about "fails with E" can be
  expressed.
* jsPDF is external to the repository; it is modelled at millimetre
  precision: a document is the list of its pages, a page carries the
  physical size resolved from the format string (swapped for landscape)
  and the list of images placed on it.
-/

namespace LongImgToPDF

/-- `PageSize` enum from src/types.ts. -/
inductive PageSize where
  | A4
  | Letter
  | Legal
deriving DecidableEq, Repr

/-- `Orientation` enum from src/types.ts. -/
inductive Orientation where
  | portrait
  | landscape
deriving DecidableEq, Repr

/-- `PdfOptions` interface from src/types.ts (margin in mm, quality in 0-1). -/
structure PdfOptions where
  pageSize : PageSize
  orientation : Orientation
  margin : ℚ
  quality : ℚ
deriving DecidableEq, Repr

/-- The `PAGE_DIMENSIONS` table of src/services/pdfService.ts, in mm. -/
def PAGE_DIMENSIONS : PageSize → ℚ × ℚ
  | .A4 => (210, 297)
  | .Letter => (2159 / 10, 2794 / 10)
  | .Legal => (2159 / 10, 3556 / 10)

/-- `pageWidthMm` of `generatePdfPages` (and `pageWidth` of `createPdfBlob`):
the physical page width, swapped for landscape. -/
def pageWidthMm (o : PdfOptions) : ℚ :=
  if o.orientation = .portrait then (PAGE_DIMENSIONS o.pageSize).1
  else (PAGE_DIMENSIONS o.pageSize).2

/-- `pageHeightMm` of `generatePdfPages` (and `pageHeight` of `createPdfBlob`). -/
def pageHeightMm (o : PdfOptions) : ℚ :=
  if o.orientation = .portrait then (PAGE_DIMENSIONS o.pageSize).2
  else (PAGE_DIMENSIONS o.pageSize).1

/-- `printableWidthMm = pageWidthMm - (margin * 2)` from `generatePdfPages`. -/
def printableWidthMm (o : PdfOptions) : ℚ :=
  pageWidthMm o - o.margin * 2

/-- `printableHeightMm = pageHeightMm - (margin * 2)` from `generatePdfPages`. -/
def printableHeightMm (o : PdfOptions) : ℚ :=
  pageHeightMm o - o.margin * 2

/-- `scale = originalWidth / printableWidthMm` from `generatePdfPages`. -/
def scale (o : PdfOptions) (originalWidth : ℚ) : ℚ :=
  originalWidth / printableWidthMm o

/-- `segmentHeightPx = printableHeightMm * scale` from `generatePdfPages`. -/
def segmentHeightPx (o : PdfOptions) (originalWidth : ℚ) : ℚ :=
  printableHeightMm o * scale o originalWidth

/-- `totalPages = Math.ceil(originalHeight / segmentHeightPx)` from
`generatePdfPages`. -/
def totalPages (o : PdfOptions) (originalWidth originalHeight : ℚ) : ℤ :=
  ⌈originalHeight / segmentHeightPx o originalWidth⌉

/-- The state of one canvas after the drawing calls made by the loop body of
`generatePdfPages`: dimensions, the `fillRect` (with the current
`fillStyle`), and the `drawImage` source/destination rectangles. -/
structure Canvas where
  width : ℚ
  height : ℚ
  fillStyle : String
  fillX : ℚ
  fillY : ℚ
  fillW : ℚ
  fillH : ℚ
  srcImage : String
  srcX : ℚ
  srcY : ℚ
  srcW : ℚ
  srcH : ℚ
  dstX : ℚ
  dstY : ℚ
  dstW : ℚ
  dstH : ℚ
deriving DecidableEq, Repr

/-- Result of `canvas.toDataURL(mime, quality)`: an abstract encoded image,
modelled as the canvas state packaged with the mime type and quality. -/
structure DataUrl where
  mime : String
  content : Canvas
  quality : ℚ
deriving DecidableEq, Repr

/-- `ProcessedPage` interface from src/types.ts. -/
structure ProcessedPage where
  dataUrl : DataUrl
  width : ℚ
  height : ℚ
deriving DecidableEq, Repr

/-- The body of the `for` loop of `generatePdfPages` for page index `i`
(executed when `getContext` succeeded): computes `currentY`,
`remainingHeight`, `captureHeight`, sizes the canvas to
`(originalWidth, segmentHeightPx)`, fills it white, draws the slice
`[currentY, currentY + captureHeight)` of the source at the top-left, and
encodes the canvas as JPEG at `options.quality`. -/
def renderPage (img : String) (originalWidth originalHeight : ℚ)
    (options : PdfOptions) (i : ℕ) : ProcessedPage :=
  let seg := segmentHeightPx options originalWidth
  let currentY := (i : ℚ) * seg
  let remainingHeight := originalHeight - currentY
  let captureHeight := min seg remainingHeight
  let canvas : Canvas :=
    { width := originalWidth
      height := seg
      fillStyle := "white"
      fillX := 0, fillY := 0, fillW := originalWidth, fillH := seg
      srcImage := img
      srcX := 0, srcY := currentY, srcW := originalWidth, srcH := captureHeight
      dstX := 0, dstY := 0, dstW := originalWidth, dstH := captureHeight }
  { dataUrl := { mime := "image/jpeg", content := canvas, quality := options.quality }
    width := canvas.width
    height := canvas.height }

/-- The `pages` array built by the `for` loop of `generatePdfPages`:
indices run over `[0, totalPages)`; an index whose `getContext('2d')`
returned `null` is skipped by `continue` (hence `filterMap`). -/
def generatePdfPagesList (ctxOk : ℕ → Bool) (img : String)
    (originalWidth originalHeight : ℚ) (options : PdfOptions) :
    List ProcessedPage :=
  (List.range (totalPages options originalWidth originalHeight).toNat).filterMap
    (fun i => if ctxOk i then some (renderPage img originalWidth originalHeight options i)
              else none)

/-- Errors the specification assigns to the Segmenter. -/
inductive SegmentError where
  | invalidGeometry
  | imageTooSmall
  | encodeError
deriving DecidableEq, Repr

/-- `generatePdfPages` from src/services/pdfService.ts.  The source contains
no `throw` and the promise it returns is only ever resolved, so the
embedding always returns `Except.ok` of the pages array. -/
def generatePdfPages (ctxOk : ℕ → Bool) (img : String)
    (originalWidth originalHeight : ℚ) (options : PdfOptions) :
    Except SegmentError (List ProcessedPage) :=
  .ok (generatePdfPagesList ctxOk img originalWidth originalHeight options)

/-- One image placed on a PDF page by `pdf.addImage(dataUrl, 'JPEG', x, y,
w, h, undefined, 'FAST')`. -/
structure PdfImage where
  dataUrl : DataUrl
  format : String
  x : ℚ
  y : ℚ
  w : ℚ
  h : ℚ
  compression : String
deriving DecidableEq, Repr

/-- One page of a jsPDF document: its physical size in mm (already swapped
for landscape) and the images placed on it, in order. -/
structure PdfPage where
  width : ℚ
  height : ℚ
  images : List PdfImage
deriving DecidableEq, Repr

/-- A jsPDF document: the measurement unit it was created with and its
pages, in order. -/
structure PdfDocument where
  unit : String
  pages : List PdfPage
deriving DecidableEq, Repr

/-- `pageSize.toLowerCase()` for the format strings handed to jsPDF. -/
def pageSizeFormat : PageSize → String
  | .A4 => "a4"
  | .Letter => "letter"
  | .Legal => "legal"

/-- jsPDF's resolution of a format string to physical mm dimensions
(portrait width, portrait height); external library, modelled at mm
precision for the three formats this program uses. -/
def jsPdfFormatDims : String → ℚ × ℚ
  | "a4" => (210, 297)
  | "letter" => (2159 / 10, 2794 / 10)
  | "legal" => (2159 / 10, 3556 / 10)
  | _ => (210, 297)

/-- A fresh jsPDF page of the given format and orientation (no images yet);
jsPDF swaps the format dimensions for landscape. -/
def mkBlankPage (o : Orientation) (format : String) : PdfPage :=
  let d := jsPdfFormatDims format
  { width := if o = .portrait then d.1 else d.2
    height := if o = .portrait then d.2 else d.1
    images := [] }

/-- `new jsPDF({orientation, unit, format})`: a document with one initial
blank page. -/
def jsPdfNew (o : Orientation) (unit : String) (format : String) : PdfDocument :=
  { unit := unit, pages := [mkBlankPage o format] }

/-- `pdf.addPage(format, orientation)`: appends a blank page. -/
def addPage (d : PdfDocument) (format : String) (o : Orientation) : PdfDocument :=
  { d with pages := d.pages ++ [mkBlankPage o format] }

/-- Apply `f` to the last element of a list (jsPDF draws on the current,
i.e. last, page). -/
def updateLast : List PdfPage → (PdfPage → PdfPage) → List PdfPage
  | [], _ => []
  | [p], f => [f p]
  | p :: q :: ps, f => p :: updateLast (q :: ps) f

/-- `pdf.addImage(...)`: places an image on the current (last) page. -/
def addImage (d : PdfDocument) (img : PdfImage) : PdfDocument :=
  { d with pages := updateLast d.pages (fun p => { p with images := p.images ++ [img] }) }

/-- The body of `pages.forEach((page, idx) => ...)` in `createPdfBlob`:
`if (idx > 0) pdf.addPage(...)`, then `pdf.addImage(page.dataUrl, 'JPEG',
margin, margin, drawWidth, drawHeight, undefined, 'FAST')`. -/
def addPageToPdf (options : PdfOptions) (drawWidth drawHeight : ℚ)
    (pdf : PdfDocument) (page : ProcessedPage) (idx : ℕ) : PdfDocument :=
  let pdf := if 0 < idx then addPage pdf (pageSizeFormat options.pageSize) options.orientation
             else pdf
  addImage pdf
    { dataUrl := page.dataUrl
      format := "JPEG"
      x := options.margin
      y := options.margin
      w := drawWidth
      h := drawHeight
      compression := "FAST" }

/-- The `forEach` loop of `createPdfBlob`, with the running index. -/
def forEachPage (options : PdfOptions) (drawWidth drawHeight : ℚ) :
    PdfDocument → ℕ → List ProcessedPage → PdfDocument
  | pdf, _, [] => pdf
  | pdf, idx, p :: rest =>
      forEachPage options drawWidth drawHeight
        (addPageToPdf options drawWidth drawHeight pdf p idx) (idx + 1) rest

/-- Errors the specification assigns to the Assembler. -/
inductive AssembleError where
  | emptyInput
deriving DecidableEq, Repr

/-- `createPdfBlob` from src/services/pdfService.ts.  The source contains no
`throw`, so the embedding always returns `Except.ok` of the document. -/
def createPdfBlob (pages : List ProcessedPage) (options : PdfOptions) :
    Except AssembleError PdfDocument :=
  let pdf := jsPdfNew options.orientation "mm" (pageSizeFormat options.pageSize)
  let drawWidth := pageWidthMm options - options.margin * 2
  let drawHeight := pageHeightMm options - options.margin * 2
  .ok (forEachPage options drawWidth drawHeight pdf 0 pages)

/-- The `captureHeight` computed in the loop body of `generatePdfPages` for
page index `i`: `min(segmentHeightPx, originalHeight - i * segmentHeightPx)`. -/
def captureHeight (o : PdfOptions) (originalWidth originalHeight : ℚ) (i : ℕ) : ℚ :=
  min (segmentHeightPx o originalWidth)
    (originalHeight - (i : ℚ) * segmentHeightPx o originalWidth)

/-- A4, portrait, 10 mm margin, quality 0.8: the concrete geometry of the
spec's worked scenario. -/
def oA4m10 : PdfOptions :=
  { pageSize := .A4, orientation := .portrait, margin := 10, quality := 4 / 5 }

/-- Same geometry with a 20 mm margin. -/
def oA4m20 : PdfOptions :=
  { pageSize := .A4, orientation := .portrait, margin := 20, quality := 4 / 5 }

theorem printableWidthMm_oA4m10 : printableWidthMm oA4m10 = 190 := by
  norm_num [printableWidthMm, pageWidthMm, PAGE_DIMENSIONS, oA4m10]

theorem printableHeightMm_oA4m10 : printableHeightMm oA4m10 = 277 := by
  norm_num [printableHeightMm, pageHeightMm, PAGE_DIMENSIONS, oA4m10]

theorem printableWidthMm_oA4m20 : printableWidthMm oA4m20 = 170 := by
  norm_num [printableWidthMm, pageWidthMm, PAGE_DIMENSIONS, oA4m20]

theorem printableHeightMm_oA4m20 : printableHeightMm oA4m20 = 257 := by
  norm_num [printableHeightMm, pageHeightMm, PAGE_DIMENSIONS, oA4m20]

/-- When the printable area is positive and the image is non-degenerate, the
segment height is positive. -/
theorem segmentHeightPx_pos (o : PdfOptions) (W : ℚ)
    (hpw : 0 < printableWidthMm o) (hph : 0 < printableHeightMm o)
    (hW : 0 < W) : 0 < segmentHeightPx o W := by
  unfold segmentHeightPx scale
  exact mul_pos hph (div_pos hW hpw)

/-- `Math.ceil` of a positive ratio is at least one. -/
theorem one_le_totalPages (o : PdfOptions) (W H : ℚ)
    (hseg : 0 < segmentHeightPx o W) (hH : 0 < H) :
    1 ≤ totalPages o W H := by
  unfold totalPages
  exact Int.ceil_pos.mpr (div_pos hH hseg)

/-- When the 2D context is available at every index, no page is skipped: the
loop produces exactly one rendered page per index of `[0, totalPages)`. -/
theorem generatePdfPagesList_all_ctx (ctxOk : ℕ → Bool) (img : String)
    (W H : ℚ) (o : PdfOptions) (hctx : ∀ i, ctxOk i = true) :
    generatePdfPagesList ctxOk img W H o =
      (List.range (totalPages o W H).toNat).map (renderPage img W H o) := by
  unfold generatePdfPagesList
  simp [hctx]
  exact congrFun (List.filterMap_eq_map _) _

/-- C1: for every valid geometry (positive printable width and height) and
every source image with positive width and height, the segmenter computes
`scale = W / printableWidthMm` and `segmentHeightPx = printableHeightMm *
scale`, and returns exactly `totalPages = ceil(H / segmentHeightPx)` pages,
with `totalPages ≥ 1`. -/
theorem C1_segment_page_count (ctxOk : ℕ → Bool) (img : String) (W H : ℚ)
    (o : PdfOptions) (hctx : ∀ i, ctxOk i = true)
    (hpw : 0 < printableWidthMm o) (hph : 0 < printableHeightMm o)
    (hW : 0 < W) (hH : 0 < H) :
    scale o W = W / printableWidthMm o ∧
    segmentHeightPx o W = printableHeightMm o * scale o W ∧
    generatePdfPages ctxOk img W H o = .ok (generatePdfPagesList ctxOk img W H o) ∧
    (generatePdfPagesList ctxOk img W H o).length = (totalPages o W H).toNat ∧
    totalPages o W H = ⌈H / segmentHeightPx o W⌉ ∧
    1 ≤ totalPages o W H := by
  refine ⟨rfl, rfl, rfl, ?_, rfl, ?_⟩
  · rw [generatePdfPagesList_all_ctx ctxOk img W H o hctx]
    simp
  · exact one_le_totalPages o W H (segmentHeightPx_pos o W hpw hph hW) hH

/-- C1 at the spec's concrete scenario W = 1200, H = 12000, A4 portrait with
10 mm margins. -/
theorem C1_segment_page_count_witness :
    (0 < printableWidthMm oA4m10 ∧ 0 < printableHeightMm oA4m10 ∧
      (0:ℚ) < 1200 ∧ (0:ℚ) < 12000) ∧
    ((generatePdfPagesList (fun _ => true) "img" 1200 12000 oA4m10).length =
        (totalPages oA4m10 1200 12000).toNat ∧
      1 ≤ totalPages oA4m10 1200 12000) := by
  have h := C1_segment_page_count (fun _ => true) "img" 1200 12000 oA4m10
    (fun _ => rfl)
    (by rw [printableWidthMm_oA4m10]; norm_num)
    (by rw [printableHeightMm_oA4m10]; norm_num)
    (by norm_num) (by norm_num)
  exact ⟨⟨by rw [printableWidthMm_oA4m10]; norm_num,
          by rw [printableHeightMm_oA4m10]; norm_num,
          by norm_num, by norm_num⟩,
         h.2.2.2.1, h.2.2.2.2.2⟩

/-- The ceiling definition of `totalPages` bounds `H` between
`(totalPages - 1) * segmentHeightPx` (strictly) and
`totalPages * segmentHeightPx`. -/
theorem totalPages_bounds (o : PdfOptions) (W H : ℚ)
    (hseg : 0 < segmentHeightPx o W) (hH : 0 < H) :
    (((totalPages o W H).toNat : ℚ) - 1) * segmentHeightPx o W < H ∧
    H ≤ ((totalPages o W H).toNat : ℚ) * segmentHeightPx o W := by
  have htp : 1 ≤ totalPages o W H := one_le_totalPages o W H hseg hH
  have h0 : (0 : ℤ) ≤ totalPages o W H := le_trans zero_le_one htp
  have hcast : (((totalPages o W H).toNat : ℚ)) = ((totalPages o W H : ℤ) : ℚ) := by
    exact_mod_cast Int.toNat_of_nonneg h0
  constructor
  · have h2 : ((totalPages o W H : ℤ) : ℚ) < H / segmentHeightPx o W + 1 :=
      Int.ceil_lt_add_one _
    have h3 : (((totalPages o W H).toNat : ℚ)) - 1 < H / segmentHeightPx o W := by
      rw [hcast]; linarith
    exact (lt_div_iff₀ hseg).mp h3
  · have h1 : H / segmentHeightPx o W ≤ ((totalPages o W H : ℤ) : ℚ) := Int.le_ceil _
    rw [div_le_iff₀ hseg] at h1
    rw [hcast]
    exact h1

/-- Every page except the last captures a full segment. -/
theorem captureHeight_full (o : PdfOptions) (W H : ℚ) (i : ℕ)
    (hseg : 0 < segmentHeightPx o W) (hH : 0 < H)
    (hi : i + 1 < (totalPages o W H).toNat) :
    captureHeight o W H i = segmentHeightPx o W := by
  have hA := (totalPages_bounds o W H hseg hH).1
  have h2 : (i : ℚ) + 2 ≤ (((totalPages o W H).toNat : ℚ)) := by
    exact_mod_cast Nat.succ_le_of_lt hi
  have h4 : ((i : ℚ) + 1) * segmentHeightPx o W < H := by
    calc ((i : ℚ) + 1) * segmentHeightPx o W
        ≤ ((((totalPages o W H).toNat : ℚ)) - 1) * segmentHeightPx o W := by
          apply mul_le_mul_of_nonneg_right _ hseg.le
          linarith
      _ < H := hA
  rw [add_mul, one_mul] at h4
  unfold captureHeight
  exact min_eq_left (by linarith)

/-- The last page captures exactly the remaining rows, a positive number. -/
theorem captureHeight_last (o : PdfOptions) (W H : ℚ)
    (hseg : 0 < segmentHeightPx o W) (hH : 0 < H) :
    captureHeight o W H ((totalPages o W H).toNat - 1) =
      H - ((((totalPages o W H).toNat - 1 : ℕ)) : ℚ) * segmentHeightPx o W ∧
    0 < captureHeight o W H ((totalPages o W H).toNat - 1) := by
  obtain ⟨hA, hB⟩ := totalPages_bounds o W H hseg hH
  have htp : 1 ≤ totalPages o W H := one_le_totalPages o W H hseg hH
  have hn1 : 1 ≤ (totalPages o W H).toNat := by omega
  have hcast : ((((totalPages o W H).toNat - 1 : ℕ)) : ℚ) =
      (((totalPages o W H).toNat : ℚ)) - 1 := by
    push_cast [Nat.cast_sub hn1]
    ring
  have hexp : ((((totalPages o W H).toNat : ℚ)) - 1) * segmentHeightPx o W =
      (((totalPages o W H).toNat : ℚ)) * segmentHeightPx o W - segmentHeightPx o W := by
    ring
  have heq : captureHeight o W H ((totalPages o W H).toNat - 1) =
      H - ((((totalPages o W H).toNat - 1 : ℕ)) : ℚ) * segmentHeightPx o W := by
    unfold captureHeight
    apply min_eq_right
    rw [hcast, hexp]
    linarith
  refine ⟨heq, ?_⟩
  rw [heq, hcast]
  linarith

/-- C2: with `n = totalPages`, the segmenter records capture heights
`captureHeight_i = min(segmentHeightPx, H - i * segmentHeightPx)` in the
rendered pages; every page before the last captures a full segment; the last
captures exactly the positive remainder; and the capture heights sum to `H`
exactly. -/
theorem C2_capture_partition (ctxOk : ℕ → Bool) (img : String) (W H : ℚ)
    (o : PdfOptions) (hctx : ∀ i, ctxOk i = true)
    (hpw : 0 < printableWidthMm o) (hph : 0 < printableHeightMm o)
    (hW : 0 < W) (hH : 0 < H) :
    ((generatePdfPagesList ctxOk img W H o).map (fun p => p.dataUrl.content.srcH) =
      (List.range (totalPages o W H).toNat).map (captureHeight o W H)) ∧
    (∀ i, i + 1 < (totalPages o W H).toNat →
      captureHeight o W H i = segmentHeightPx o W) ∧
    (captureHeight o W H ((totalPages o W H).toNat - 1) =
      H - ((((totalPages o W H).toNat - 1 : ℕ)) : ℚ) * segmentHeightPx o W ∧
     0 < captureHeight o W H ((totalPages o W H).toNat - 1)) ∧
    ∑ i ∈ Finset.range (totalPages o W H).toNat, captureHeight o W H i = H := by
  have hseg : 0 < segmentHeightPx o W := segmentHeightPx_pos o W hpw hph hW
  refine ⟨?_, fun i hi => captureHeight_full o W H i hseg hH hi,
    captureHeight_last o W H hseg hH, ?_⟩
  · rw [generatePdfPagesList_all_ctx ctxOk img W H o hctx, List.map_map]
    apply List.map_congr_left
    intro i _
    simp [renderPage, captureHeight]
  · have htp : 1 ≤ totalPages o W H := one_le_totalPages o W H hseg hH
    obtain ⟨m, hm⟩ : ∃ m, (totalPages o W H).toNat = m + 1 :=
      ⟨(totalPages o W H).toNat - 1, by omega⟩
    have hlast := (captureHeight_last o W H hseg hH).1
    rw [hm, Nat.add_sub_cancel] at hlast
    have hfull : ∀ i ∈ Finset.range m, captureHeight o W H i = segmentHeightPx o W := by
      intro i hi
      apply captureHeight_full o W H i hseg hH
      rw [hm]
      have := Finset.mem_range.mp hi
      omega
    rw [hm, Finset.sum_range_succ, Finset.sum_congr rfl hfull, Finset.sum_const,
      Finset.card_range, nsmul_eq_mul, hlast]
    ring

/-- C2 at the spec's concrete scenario. -/
theorem C2_capture_partition_witness :
    (0 < printableWidthMm oA4m10 ∧ 0 < printableHeightMm oA4m10 ∧
      (0:ℚ) < 1200 ∧ (0:ℚ) < 12000) ∧
    ∑ i ∈ Finset.range (totalPages oA4m10 1200 12000).toNat,
      captureHeight oA4m10 1200 12000 i = 12000 := by
  have h := C2_capture_partition (fun _ => true) "img" 1200 12000 oA4m10
    (fun _ => rfl)
    (by rw [printableWidthMm_oA4m10]; norm_num)
    (by rw [printableHeightMm_oA4m10]; norm_num)
    (by norm_num) (by norm_num)
  exact ⟨⟨by rw [printableWidthMm_oA4m10]; norm_num,
          by rw [printableHeightMm_oA4m10]; norm_num,
          by norm_num, by norm_num⟩, h.2.2.2⟩

theorem segmentHeightPx_oA4m10 : segmentHeightPx oA4m10 1200 = 33240 / 19 := by
  unfold segmentHeightPx scale
  rw [printableWidthMm_oA4m10, printableHeightMm_oA4m10]
  norm_num

theorem totalPages_oA4m10 : totalPages oA4m10 1200 12000 = 7 := by
  unfold totalPages
  rw [segmentHeightPx_oA4m10]
  rw [Int.ceil_eq_iff]
  constructor
  · norm_num
  · norm_num

/-- C3: every page bitmap returned by the segmenter, including the last
(possibly partial) page, has pixel width `W` and pixel height
`segmentHeightPx`; its canvas is filled white over its full extent and the
cropped source rows are drawn at the top-left `(0, 0)`. -/
theorem C3_fixed_canvas_geometry (ctxOk : ℕ → Bool) (img : String) (W H : ℚ)
    (o : PdfOptions)
    (hpw : 0 < printableWidthMm o) (hph : 0 < printableHeightMm o)
    (hW : 0 < W) (hH : 0 < H) :
    ∀ p ∈ generatePdfPagesList ctxOk img W H o,
      p.width = W ∧
      p.height = segmentHeightPx o W ∧
      p.dataUrl.content.width = W ∧
      p.dataUrl.content.height = segmentHeightPx o W ∧
      p.dataUrl.content.fillStyle = "white" ∧
      p.dataUrl.content.fillX = 0 ∧
      p.dataUrl.content.fillY = 0 ∧
      p.dataUrl.content.fillW = W ∧
      p.dataUrl.content.fillH = segmentHeightPx o W ∧
      p.dataUrl.content.dstX = 0 ∧
      p.dataUrl.content.dstY = 0 := by
  intro p hp
  unfold generatePdfPagesList at hp
  rw [List.mem_filterMap] at hp
  obtain ⟨i, _, hi⟩ := hp
  split at hi
  · cases hi
    exact ⟨rfl, rfl, rfl, rfl, rfl, rfl, rfl, rfl, rfl, rfl, rfl⟩
  · cases hi

/-- C3 at the spec's concrete scenario, for the first page. -/
theorem C3_fixed_canvas_geometry_witness :
    (0 < printableWidthMm oA4m10 ∧ 0 < printableHeightMm oA4m10 ∧
      (0:ℚ) < 1200 ∧ (0:ℚ) < 12000 ∧
      renderPage "img" 1200 12000 oA4m10 0 ∈
        generatePdfPagesList (fun _ => true) "img" 1200 12000 oA4m10) ∧
    ((renderPage "img" 1200 12000 oA4m10 0).width = 1200 ∧
      (renderPage "img" 1200 12000 oA4m10 0).height = segmentHeightPx oA4m10 1200) := by
  have hmem : renderPage "img" 1200 12000 oA4m10 0 ∈
      generatePdfPagesList (fun _ => true) "img" 1200 12000 oA4m10 := by
    rw [generatePdfPagesList_all_ctx _ _ _ _ _ (fun _ => rfl)]
    refine List.mem_map_of_mem _ (List.mem_range.mpr ?_)
    rw [totalPages_oA4m10]
    norm_num
  have h := C3_fixed_canvas_geometry (fun _ => true) "img" 1200 12000 oA4m10
    (by rw [printableWidthMm_oA4m10]; norm_num)
    (by rw [printableHeightMm_oA4m10]; norm_num)
    (by norm_num) (by norm_num)
    (renderPage "img" 1200 12000 oA4m10 0) hmem
  exact ⟨⟨by rw [printableWidthMm_oA4m10]; norm_num,
          by rw [printableHeightMm_oA4m10]; norm_num,
          by norm_num, by norm_num, hmem⟩, h.1, h.2.1⟩

/-- A4 portrait with a 150 mm margin: both printable dimensions negative. -/
def oA4m150 : PdfOptions :=
  { pageSize := .A4, orientation := .portrait, margin := 150, quality := 4 / 5 }

/-- C4 counterexample: on a geometry whose printable area is negative
(A4 portrait, 150 mm margin: printable −90 mm × −3 mm), the segmenter does
not fail with `InvalidGeometryError`; the two negative factors cancel in
`segmentHeightPx` (= 40 px here) and the call even succeeds with one page. -/
theorem C4_counterexample :
    printableWidthMm oA4m150 < 0 ∧
    printableHeightMm oA4m150 < 0 ∧
    (generatePdfPages (fun _ => true) "img" 1200 40 oA4m150).isOk = true ∧
    (generatePdfPagesList (fun _ => true) "img" 1200 40 oA4m150).length = 1 := by
  have hpw : printableWidthMm oA4m150 = -90 := by
    norm_num [printableWidthMm, pageWidthMm, PAGE_DIMENSIONS, oA4m150]
  have hph : printableHeightMm oA4m150 = -3 := by
    norm_num [printableHeightMm, pageHeightMm, PAGE_DIMENSIONS, oA4m150]
  have hseg : segmentHeightPx oA4m150 1200 = 40 := by
    unfold segmentHeightPx scale
    rw [hpw, hph]
    norm_num
  have htp : totalPages oA4m150 1200 40 = 1 := by
    unfold totalPages
    rw [hseg]
    rw [Int.ceil_eq_iff]
    constructor
    · norm_num
    · norm_num
  refine ⟨by rw [hpw]; norm_num, by rw [hph]; norm_num, rfl, ?_⟩
  rw [generatePdfPagesList_all_ctx _ _ _ _ _ (fun _ => rfl)]
  rw [List.length_map, List.length_range, htp]
  rfl

/-- C4 (amended): the segmenter performs no geometry or size validation and
never fails: every call returns `ok` (even for a non-positive printable
area — see the counterexample — where it can still produce pages), and a
source height of zero yields `ok []` rather than `ImageTooSmallError`. -/
theorem C4_no_validation (ctxOk : ℕ → Bool) (img : String) (W H : ℚ)
    (o : PdfOptions) :
    (generatePdfPages ctxOk img W H o).isOk = true ∧
    (H = 0 → generatePdfPages ctxOk img W H o = .ok []) := by
  refine ⟨rfl, fun hH => ?_⟩
  subst hH
  unfold generatePdfPages generatePdfPagesList totalPages
  norm_num

/-- C4 (amended) at a zero-height source. -/
theorem C4_no_validation_witness :
    (generatePdfPages (fun _ => true) "img" 1200 0 oA4m10).isOk = true ∧
    generatePdfPages (fun _ => true) "img" 1200 0 oA4m10 = .ok [] :=
  ⟨(C4_no_validation (fun _ => true) "img" 1200 0 oA4m10).1,
   (C4_no_validation (fun _ => true) "img" 1200 0 oA4m10).2 rfl⟩

/-- C5 counterexample: the assembler called on an empty page list does not
raise `EmptyInputError`; it silently returns jsPDF's initial document,
which has one blank A4 page and no images. -/
theorem C5_counterexample :
    createPdfBlob [] oA4m10 =
      .ok { unit := "mm", pages := [{ width := 210, height := 297, images := [] }] } := by
  rfl

/-- C5 (amended): the assembler never checks for an empty input and always
succeeds; on an empty page list it returns the freshly created jsPDF
document (one blank page, no images placed). -/
theorem C5_no_empty_check (pages : List ProcessedPage) (o : PdfOptions) :
    (createPdfBlob pages o).isOk = true ∧
    (pages = [] → createPdfBlob pages o =
      .ok (jsPdfNew o.orientation "mm" (pageSizeFormat o.pageSize))) := by
  refine ⟨?_, fun h => ?_⟩
  · cases pages with
    | nil => rfl
    | cons p rest => rfl
  · subst h
    rfl

/-- C5 (amended) on the empty input. -/
theorem C5_no_empty_check_witness :
    (createPdfBlob [] oA4m10).isOk = true ∧
    createPdfBlob [] oA4m10 =
      .ok (jsPdfNew oA4m10.orientation "mm" (pageSizeFormat oA4m10.pageSize)) :=
  ⟨(C5_no_empty_check [] oA4m10).1, (C5_no_empty_check [] oA4m10).2 rfl⟩

/-- The image `createPdfBlob` places on a page: the page's encoded bitmap at
`(margin, margin)`, stretched to `drawWidth × drawHeight`. -/
def placedImage (o : PdfOptions) (drawWidth drawHeight : ℚ) (p : ProcessedPage) : PdfImage :=
  { dataUrl := p.dataUrl
    format := "JPEG"
    x := o.margin
    y := o.margin
    w := drawWidth
    h := drawHeight
    compression := "FAST" }

/-- The document page the Assembler is specified to produce for one
page-bitmap: stamped with the configured physical page size (swapped for
landscape) and carrying exactly one image, placed at `(marginMm, marginMm)`
and scaled to fill `printableWidthMm × printableHeightMm`. -/
def assembledPage (o : PdfOptions) (p : ProcessedPage) : PdfPage :=
  { width := pageWidthMm o
    height := pageHeightMm o
    images := [{ dataUrl := p.dataUrl
                 format := "JPEG"
                 x := o.margin
                 y := o.margin
                 w := printableWidthMm o
                 h := printableHeightMm o
                 compression := "FAST" }] }

/-- jsPDF resolves the lowercased format string of each `PageSize` to the
same physical dimensions as the source's `PAGE_DIMENSIONS` table. -/
theorem mkBlankPage_eq (o : PdfOptions) :
    mkBlankPage o.orientation (pageSizeFormat o.pageSize) =
      { width := pageWidthMm o, height := pageHeightMm o, images := [] } := by
  obtain ⟨ps, orient, m, q⟩ := o
  cases ps <;> cases orient <;> rfl

/-- Updating the last element of a list that ends in `[x]`. -/
theorem updateLast_append (xs : List PdfPage) (x : PdfPage) (f : PdfPage → PdfPage) :
    updateLast (xs ++ [x]) f = xs ++ [f x] := by
  induction xs with
  | nil => rfl
  | cons a as ih =>
    cases as with
    | nil => rfl
    | cons b bs =>
      show a :: updateLast ((b :: bs) ++ [x]) f = a :: ((b :: bs) ++ [f x])
      rw [ih]

/-- The `forEach` body at a positive index appends one fresh page carrying
exactly the one placed image. -/
theorem addPageToPdf_pos (o : PdfOptions) (dw dh : ℚ) (d : PdfDocument)
    (p : ProcessedPage) (idx : ℕ) (hidx : 0 < idx) :
    addPageToPdf o dw dh d p idx =
      { unit := d.unit
        pages := d.pages ++
          [{ mkBlankPage o.orientation (pageSizeFormat o.pageSize) with
              images := [placedImage o dw dh p] }] } := by
  simp only [addPageToPdf, addPage, addImage]
  rw [if_pos hidx]
  congr 1
  rw [updateLast_append]
  rfl

/-- The `forEach` loop from index 1 on appends one assembled page per
remaining processed page. -/
theorem forEachPage_from_one (o : PdfOptions) (dw dh : ℚ)
    (rest : List ProcessedPage) :
    ∀ (d : PdfDocument) (idx : ℕ), 0 < idx →
      forEachPage o dw dh d idx rest =
        { unit := d.unit
          pages := d.pages ++ rest.map (fun p =>
            { mkBlankPage o.orientation (pageSizeFormat o.pageSize) with
              images := [placedImage o dw dh p] }) } := by
  induction rest with
  | nil =>
    intro d idx _
    simp [forEachPage]
  | cons p rest ih =>
    intro d idx hidx
    show forEachPage o dw dh (addPageToPdf o dw dh d p idx) (idx + 1) rest = _
    rw [addPageToPdf_pos o dw dh d p idx hidx]
    rw [ih _ (idx + 1) (by omega)]
    simp

/-- The `forEach` body at index 0 draws on the initial blank page of the
fresh document instead of adding one. -/
theorem addPageToPdf_zero (o : PdfOptions) (dw dh : ℚ) (p : ProcessedPage) :
    addPageToPdf o dw dh (jsPdfNew o.orientation "mm" (pageSizeFormat o.pageSize)) p 0 =
      { unit := "mm"
        pages := [{ mkBlankPage o.orientation (pageSizeFormat o.pageSize) with
                    images := [placedImage o dw dh p] }] } := by
  rfl

/-- A raw jsPDF page holding one placed image is exactly the assembled page
of the spec, once the format table and the printable-area arithmetic are
evaluated. -/
theorem blank_with_image_eq_assembledPage (o : PdfOptions) (p : ProcessedPage) :
    ({ mkBlankPage o.orientation (pageSizeFormat o.pageSize) with
        images := [placedImage o (pageWidthMm o - o.margin * 2)
          (pageHeightMm o - o.margin * 2) p] } : PdfPage) = assembledPage o p := by
  obtain ⟨ps, orient, m, q⟩ := o
  cases ps <;> cases orient <;> rfl

/-- C6: on any non-empty list of `k` page-bitmaps, the assembler produces a
document of exactly `k` pages; page `i` is stamped with the configured
physical page size (dimensions swapped for landscape) and carries exactly
the `i`-th bitmap, placed at `(marginMm, marginMm)` and scaled to fill
`printableWidthMm × printableHeightMm`. -/
theorem C6_assembler_layout (pages : List ProcessedPage) (o : PdfOptions)
    (hne : pages ≠ []) :
    createPdfBlob pages o =
      .ok { unit := "mm", pages := pages.map (assembledPage o) } := by
  obtain ⟨p, rest, rfl⟩ := List.exists_cons_of_ne_nil hne
  show Except.ok (forEachPage o (pageWidthMm o - o.margin * 2)
    (pageHeightMm o - o.margin * 2)
    (addPageToPdf o (pageWidthMm o - o.margin * 2) (pageHeightMm o - o.margin * 2)
      (jsPdfNew o.orientation "mm" (pageSizeFormat o.pageSize)) p 0) 1 rest) = _
  rw [addPageToPdf_zero, forEachPage_from_one o _ _ rest _ 1 (by omega)]
  have hmap : rest.map (fun q =>
      ({ mkBlankPage o.orientation (pageSizeFormat o.pageSize) with
          images := [placedImage o (pageWidthMm o - o.margin * 2)
            (pageHeightMm o - o.margin * 2) q] } : PdfPage)) =
      rest.map (assembledPage o) :=
    List.map_congr_left (fun q _ => blank_with_image_eq_assembledPage o q)
  rw [hmap, blank_with_image_eq_assembledPage o p]
  rfl

/-- C6 on a concrete single-page input. -/
theorem C6_assembler_layout_witness :
    (renderPage "img" 1200 12000 oA4m10 0 :: ([] : List ProcessedPage)) ≠ [] ∧
    createPdfBlob [renderPage "img" 1200 12000 oA4m10 0] oA4m10 =
      .ok { unit := "mm"
            pages := [renderPage "img" 1200 12000 oA4m10 0].map (assembledPage oA4m10) } :=
  ⟨List.cons_ne_nil _ _,
   C6_assembler_layout [renderPage "img" 1200 12000 oA4m10 0] oA4m10
     (List.cons_ne_nil _ _)⟩

theorem segmentHeightPx_oA4m10_190 : segmentHeightPx oA4m10 190 = 277 := by
  unfold segmentHeightPx scale
  rw [printableWidthMm_oA4m10, printableHeightMm_oA4m10]
  norm_num

theorem segmentHeightPx_oA4m20_190 : segmentHeightPx oA4m20 190 = 4883 / 17 := by
  unfold segmentHeightPx scale
  rw [printableWidthMm_oA4m20, printableHeightMm_oA4m20]
  norm_num

theorem totalPages_oA4m10_190_280 : totalPages oA4m10 190 280 = 2 := by
  unfold totalPages
  rw [segmentHeightPx_oA4m10_190]
  rw [Int.ceil_eq_iff]
  constructor
  · norm_num
  · norm_num

theorem totalPages_oA4m20_190_280 : totalPages oA4m20 190 280 = 1 := by
  unfold totalPages
  rw [segmentHeightPx_oA4m20_190]
  rw [Int.ceil_eq_iff]
  constructor
  · norm_num
  · norm_num

/-- C7 counterexample: A4 portrait, W = 190 px, H = 280 px.  Raising the
margin from 10 to 20 mm strictly decreases `printableHeightMm`
(277 → 257 mm), yet `totalPages` DROPS from 2 to 1: the margin also narrows
the printable width, so the scale grows and each page swallows more source
rows (`segmentHeightPx` 277 px → 4883/17 ≈ 287.2 px).  The claimed
"never decreases" fails. -/
theorem C7_counterexample :
    printableHeightMm oA4m20 < printableHeightMm oA4m10 ∧
    totalPages oA4m10 190 280 = 2 ∧
    totalPages oA4m20 190 280 = 1 := by
  refine ⟨?_, totalPages_oA4m10_190_280, totalPages_oA4m20_190_280⟩
  rw [printableHeightMm_oA4m10, printableHeightMm_oA4m20]
  norm_num

/-- C7 (amended): changing `marginMm` from 10 to 20 (A4, portrait) strictly
decreases `printableHeightMm`, but since it also shrinks the printable
width, `segmentHeightPx` grows; consequently `totalPages` never increases
(it may strictly decrease, the opposite monotonicity of the claim). -/
theorem C7_margin_monotonicity (q W H : ℚ) (hW : 0 < W) (hH : 0 < H) :
    printableHeightMm { pageSize := .A4, orientation := .portrait, margin := 20, quality := q } <
      printableHeightMm { pageSize := .A4, orientation := .portrait, margin := 10, quality := q } ∧
    segmentHeightPx { pageSize := .A4, orientation := .portrait, margin := 10, quality := q } W ≤
      segmentHeightPx { pageSize := .A4, orientation := .portrait, margin := 20, quality := q } W ∧
    totalPages { pageSize := .A4, orientation := .portrait, margin := 20, quality := q } W H ≤
      totalPages { pageSize := .A4, orientation := .portrait, margin := 10, quality := q } W H := by
  have h10 : segmentHeightPx
      { pageSize := .A4, orientation := .portrait, margin := 10, quality := q } W =
      277 * (W / 190) := by
    unfold segmentHeightPx scale printableWidthMm printableHeightMm pageWidthMm pageHeightMm
    norm_num [PAGE_DIMENSIONS]
  have h20 : segmentHeightPx
      { pageSize := .A4, orientation := .portrait, margin := 20, quality := q } W =
      257 * (W / 170) := by
    unfold segmentHeightPx scale printableWidthMm printableHeightMm pageWidthMm pageHeightMm
    norm_num [PAGE_DIMENSIONS]
  have hseg : segmentHeightPx
      { pageSize := .A4, orientation := .portrait, margin := 10, quality := q } W ≤
      segmentHeightPx
      { pageSize := .A4, orientation := .portrait, margin := 20, quality := q } W := by
    rw [h10, h20]
    calc (277 : ℚ) * (W / 190) = (277 / 190) * W := by ring
      _ ≤ (257 / 170) * W := mul_le_mul_of_nonneg_right (by norm_num) hW.le
      _ = 257 * (W / 170) := by ring
  have hpos10 : 0 < segmentHeightPx
      { pageSize := .A4, orientation := .portrait, margin := 10, quality := q } W := by
    rw [h10]
    positivity
  have hpos20 : 0 < segmentHeightPx
      { pageSize := .A4, orientation := .portrait, margin := 20, quality := q } W := by
    rw [h20]
    positivity
  refine ⟨?_, hseg, ?_⟩
  · unfold printableHeightMm pageHeightMm
    norm_num [PAGE_DIMENSIONS]
  · unfold totalPages
    apply Int.ceil_le_ceil
    exact (div_le_div_iff_of_pos_left hH hpos20 hpos10).mpr hseg

/-- C7 (amended) at W = 190, H = 280, quality 0.8. -/
theorem C7_margin_monotonicity_witness :
    ((0:ℚ) < 190 ∧ (0:ℚ) < 280) ∧
    (printableHeightMm
        { pageSize := .A4, orientation := .portrait, margin := 20, quality := 4 / 5 } <
      printableHeightMm
        { pageSize := .A4, orientation := .portrait, margin := 10, quality := 4 / 5 } ∧
      totalPages { pageSize := .A4, orientation := .portrait, margin := 20, quality := 4 / 5 }
          190 280 ≤
        totalPages { pageSize := .A4, orientation := .portrait, margin := 10, quality := 4 / 5 }
          190 280) := by
  have h := C7_margin_monotonicity (4 / 5) 190 280 (by norm_num) (by norm_num)
  exact ⟨⟨by norm_num, by norm_num⟩, h.1, h.2.2⟩

theorem scale_oA4m10 : scale oA4m10 1200 = 120 / 19 := by
  unfold scale
  rw [printableWidthMm_oA4m10]
  norm_num

theorem captureHeight_oA4m10_last : captureHeight oA4m10 1200 12000 6 = 28560 / 19 := by
  unfold captureHeight
  rw [segmentHeightPx_oA4m10]
  rw [min_eq_right (by norm_num)]
  norm_num

/-- C8 counterexample: in the spec's concrete scenario the last page is
index 6 (totalPages = 7) and its capture height is
`12000 − 6 · (33240/19) = 28560/19 ≈ 1503.2` px, nowhere near the claimed
≈ 3502 px (the spec's own subtraction `12000 − 6·1749.5` equals 1503, not
3502). -/
theorem C8_counterexample :
    (totalPages oA4m10 1200 12000).toNat - 1 = 6 ∧
    captureHeight oA4m10 1200 12000 6 = 28560 / 19 ∧
    ¬ |captureHeight oA4m10 1200 12000 6 - 3502| ≤ 1 := by
  refine ⟨by rw [totalPages_oA4m10]; rfl, captureHeight_oA4m10_last, ?_⟩
  rw [captureHeight_oA4m10_last]
  rw [abs_of_nonpos (by norm_num)]
  norm_num

/-- C8 (amended): for W = 1200 px, H = 12000 px, A4 portrait, 10 mm margin:
`printableWidthMm = 190`, `scale = 1200/190 = 120/19`,
`printableHeightMm = 277`, `segmentHeightPx = 33240/19 ≈ 1749.5`,
`totalPages = 7`, and the last page's capture height is
`12000 − 6 · segmentHeightPx = 28560/19 ≈ 1503.2` px (not ≈ 3502). -/
theorem C8_concrete_scenario :
    printableWidthMm oA4m10 = 190 ∧
    scale oA4m10 1200 = 120 / 19 ∧
    printableHeightMm oA4m10 = 277 ∧
    segmentHeightPx oA4m10 1200 = 33240 / 19 ∧
    |segmentHeightPx oA4m10 1200 - 3499 / 2| ≤ 1 / 10 ∧
    totalPages oA4m10 1200 12000 = 7 ∧
    captureHeight oA4m10 1200 12000 6 = 12000 - 6 * segmentHeightPx oA4m10 1200 ∧
    captureHeight oA4m10 1200 12000 6 = 28560 / 19 := by
  refine ⟨printableWidthMm_oA4m10, scale_oA4m10, printableHeightMm_oA4m10,
    segmentHeightPx_oA4m10, ?_, totalPages_oA4m10, ?_, captureHeight_oA4m10_last⟩
  · rw [segmentHeightPx_oA4m10]
    rw [abs_of_nonpos (by norm_num)]
    norm_num
  · rw [captureHeight_oA4m10_last, segmentHeightPx_oA4m10]
    norm_num

/-- C9 counterexample: with W = 190, H = 280, A4 portrait, 10 mm margin,
`totalPages = 2`; if `getContext('2d')` fails for page index 0, the run
still succeeds (`ok`, no `EncodeError`) but returns only 1 of the 2 pages —
the failed page is silently dropped by `continue`. -/
theorem C9_counterexample :
    (generatePdfPages (fun i => decide (0 < i)) "img" 190 280 oA4m10).isOk = true ∧
    totalPages oA4m10 190 280 = 2 ∧
    (generatePdfPagesList (fun i => decide (0 < i)) "img" 190 280 oA4m10).length = 1 := by
  refine ⟨rfl, totalPages_oA4m10_190_280, ?_⟩
  unfold generatePdfPagesList
  rw [totalPages_oA4m10_190_280]
  rfl

/-- `filterMap` of an if-some-else-none equals filtering then mapping. -/
theorem filterMap_if_eq (p : ℕ → Bool) (f : ℕ → ProcessedPage) (l : List ℕ) :
    l.filterMap (fun i => if p i then some (f i) else none) =
      (l.filter p).map f := by
  induction l with
  | nil => rfl
  | cons a l ih =>
    by_cases h : p a
    · simp [List.filterMap_cons, List.filter_cons, h, ih]
    · simp [List.filterMap_cons, List.filter_cons, h, ih]

/-- C9 (amended): a page whose 2D context is unavailable is silently
skipped: the run always succeeds (never `EncodeError`) and returns exactly
the pages of the indices whose context was available, in index order; in
particular, when the context is available everywhere, every index of
`[0, totalPages)` contributes a page. -/
theorem C9_silent_skip (ctxOk : ℕ → Bool) (img : String) (W H : ℚ)
    (o : PdfOptions) :
    (generatePdfPages ctxOk img W H o).isOk = true ∧
    generatePdfPagesList ctxOk img W H o =
      ((List.range (totalPages o W H).toNat).filter (fun i => ctxOk i)).map
        (renderPage img W H o) := by
  refine ⟨rfl, ?_⟩
  unfold generatePdfPagesList
  exact filterMap_if_eq ctxOk (renderPage img W H o) _

/-- The loop of `createPdfBlob` reads only each page's `dataUrl`. -/
theorem forEachPage_dataUrl_only (o : PdfOptions) (dw dh : ℚ) :
    ∀ (ps qs : List ProcessedPage) (d : PdfDocument) (idx : ℕ),
      ps.map ProcessedPage.dataUrl = qs.map ProcessedPage.dataUrl →
      forEachPage o dw dh d idx ps = forEachPage o dw dh d idx qs := by
  intro ps
  induction ps with
  | nil =>
    intro qs d idx h
    cases qs with
    | nil => rfl
    | cons q qs => simp at h
  | cons p ps ih =>
    intro qs d idx h
    cases qs with
    | nil => simp at h
    | cons q qs =>
      simp only [List.map_cons, List.cons.injEq] at h
      obtain ⟨hd, ht⟩ := h
      show forEachPage o dw dh (addPageToPdf o dw dh d p idx) (idx + 1) ps =
        forEachPage o dw dh (addPageToPdf o dw dh d q idx) (idx + 1) qs
      have hstep : addPageToPdf o dw dh d p idx = addPageToPdf o dw dh d q idx := by
        unfold addPageToPdf
        rw [hd]
      rw [hstep]
      exact ih qs _ _ ht

/-- C10: the assembler's output depends only on the ordered `dataUrl`
payloads and the options: two page lists with pointwise identical
`dataUrl` fields (the stored `width`/`height` fields may differ
arbitrarily) assemble to identical documents. -/
theorem C10_assembly_reads_only_dataUrl (ps qs : List ProcessedPage)
    (o : PdfOptions)
    (h : ps.map ProcessedPage.dataUrl = qs.map ProcessedPage.dataUrl) :
    createPdfBlob ps o = createPdfBlob qs o := by
  show Except.ok (forEachPage o (pageWidthMm o - o.margin * 2)
    (pageHeightMm o - o.margin * 2)
    (jsPdfNew o.orientation "mm" (pageSizeFormat o.pageSize)) 0 ps) = _
  rw [forEachPage_dataUrl_only o (pageWidthMm o - o.margin * 2)
    (pageHeightMm o - o.margin * 2) ps qs
    (jsPdfNew o.orientation "mm" (pageSizeFormat o.pageSize)) 0 h]
  rfl

/-- C10 on two concrete single-page lists sharing a `dataUrl` but storing
different `width`/`height` fields. -/
theorem C10_assembly_reads_only_dataUrl_witness :
    ([({ dataUrl := (renderPage "img" 1200 12000 oA4m10 0).dataUrl,
         width := 5, height := 7 } : ProcessedPage)].map ProcessedPage.dataUrl =
      [({ dataUrl := (renderPage "img" 1200 12000 oA4m10 0).dataUrl,
          width := 100, height := 3 } : ProcessedPage)].map ProcessedPage.dataUrl) ∧
    createPdfBlob
        [{ dataUrl := (renderPage "img" 1200 12000 oA4m10 0).dataUrl,
           width := 5, height := 7 }] oA4m10 =
      createPdfBlob
        [{ dataUrl := (renderPage "img" 1200 12000 oA4m10 0).dataUrl,
           width := 100, height := 3 }] oA4m10 :=
  ⟨rfl,
   C10_assembly_reads_only_dataUrl
     [{ dataUrl := (renderPage "img" 1200 12000 oA4m10 0).dataUrl,
        width := 5, height := 7 }]
     [{ dataUrl := (renderPage "img" 1200 12000 oA4m10 0).dataUrl,
        width := 100, height := 3 }] oA4m10 rfl⟩

end LongImgToPDF
